import Mathlib

/-!
Verification of the soly transaction-building library: a shallow embedding of
its fee-estimation algorithm (`src/fee.rs`), transaction builder
(`src/transaction.rs`), base lookup-table resolution (`src/lookup.rs`) and the
caching / counting RPC provider decorators (`src/rpc/lookup.rs`,
`src/rpc/blockhash.rs`, `src/rpc/counter.rs`), together with theorems settling
the specification's testable properties.

Machine integers are modelled as `Nat` with explicit bounds where overflow or
fallible narrowing matters (the `u64 → u32` conversion of consumed compute
units).  Asynchronous RPC calls are modelled by explicit state passing: a
provider over state `σ` maps a state to a new state and an `Except` result,
and decorators are state transformers over provider states.  Wall-clock time
is an explicit `Nat` parameter threaded into every cache-reading operation
(moka's TTL caches check expiry lazily at read time).
-/

deriving instance DecidableEq for Except

namespace Soly

/-- Account addresses (`solana_pubkey::Pubkey`) are opaque fixed-length
identifiers; we model them as `Nat`. -/
abbrev Pubkey := Nat

/-- Blockhashes are opaque values compared only for equality. -/
abbrev BlockHash := Nat

/-- Transaction signatures are opaque values. -/
abbrev Signature := Nat

/-- The compute-budget program id (`solana_compute_budget_interface::ID`), an
opaque distinguished address. -/
def computeBudgetProgramID : Pubkey := 1001

/-- The memo program id (`spl_memo::ID`), an opaque distinguished address. -/
def memoProgramID : Pubkey := 1002

/-- Model of `solana_instruction::Instruction`: the program addressed plus opaque
payload bytes.  Account metas do not influence any verified operation and are
not modelled. -/
structure Instruction where
  program_id : Pubkey
  data : List Nat
deriving Repr, DecidableEq

/-- Model of `ComputeBudgetInstruction::set_compute_unit_limit`.  The payload models the
borsh discriminant (2) followed by the limit. -/
def setComputeUnitLimit (units : Nat) : Instruction :=
  { program_id := computeBudgetProgramID, data := [2, units] }

/-- Model of `ComputeBudgetInstruction::set_compute_unit_price`.  The payload models the
borsh discriminant (3) followed by the price. -/
def setComputeUnitPrice (micro_lamports : Nat) : Instruction :=
  { program_id := computeBudgetProgramID, data := [3, micro_lamports] }

/-- Model of `spl_memo::build_memo`: a memo-program instruction carrying the memo
bytes.  The signer accounts only populate account metas, which are not
modelled. -/
def build_memo (memo : List Nat) (_signer_pubkeys : List Pubkey) : Instruction :=
  { program_id := memoProgramID, data := memo }

/-- Model of `solana_message::AddressLookupTableAccount`: a table address and the
ordered addresses it compresses. -/
structure AddressLookupTableAccount where
  key : Pubkey
  addresses : List Pubkey
deriving Repr, DecidableEq

/-- Model of `solana_rpc_client_api::response::RpcPrioritizationFee`: one observed
prioritization-fee sample. -/
structure RpcPrioritizationFee where
  slot : Nat
  prioritization_fee : Nat
deriving Repr, DecidableEq

/-- Model of `RpcSimulateTransactionResult`, restricted to the only field the fee
algorithm reads: the optional consumed-unit count (a `u64` in the source). -/
structure RpcSimulateTransactionResult where
  units_consumed : Option Nat
deriving Repr, DecidableEq

/-- Model of `RpcSimulateTransactionConfig`, restricted to the only field the library
sets: signature verification. -/
structure RpcSimulateTransactionConfig where
  sig_verify : Bool
deriving Repr, DecidableEq

/-- Model of `src/error.rs`: the library's error enum.  String payloads carry the same
formatted text as the source; `#[error(transparent)]` variants wrapping
external errors are collapsed to payload-free constructors where the payload
is never inspected. -/
inductive Error where
  | NoInstructions
  | SolanaSimulateFailure (msg : String)
  | SolanaRpcError (msg : String)
  | ParseAccountError
  | MessageError
  | NumConversionError
  | InvalidComputeUnits (units : Nat) (msg : String)
  | PriorityFeeTooHigh (fee : Nat) (ceiling : Nat)
  | ComputeBudgetAlreadyPresent
  | MokaCacheError (msg : String)
  | LookupTableMiss
  | CustomError (msg : String)
deriving Repr, DecidableEq

/-- The `Display` text of each error, from the `#[error(...)]` attributes in
`src/error.rs` (used where the source formats an error into a message). -/
def Error.message : Error → String
  | .NoInstructions => "No instructions provided"
  | .SolanaSimulateFailure m => "Failed simulation: " ++ m
  | .SolanaRpcError m => "Failed RPC call: " ++ m
  | .ParseAccountError => "parse account error"
  | .MessageError => "message compile error"
  | .NumConversionError => "out of range integral type conversion attempted"
  | .InvalidComputeUnits u m => "Invalid compute units " ++ toString u ++ " " ++ m
  | .PriorityFeeTooHigh f c =>
      "Priority fee too high. Calculated fee: " ++ toString f ++
        " microlamports exceeds hard-coded ceiling: " ++ toString c ++ " microlamports"
  | .ComputeBudgetAlreadyPresent => "Compute budget already present in instructions"
  | .MokaCacheError m => "Internal moka cache error " ++ m
  | .LookupTableMiss => "Lookup table miss"
  | .CustomError m => m

/-- Model of `SOLANA_MAX_COMPUTE_UNITS` from `src/fee.rs`. -/
def SOLANA_MAX_COMPUTE_UNITS : Nat := 1400000

/-- Model of `MAX_ACCEPTABLE_PRIORITY_FEE_MICROLAMPORTS` from `src/fee.rs`
(`90_000 * 1_000_000`). -/
def MAX_ACCEPTABLE_PRIORITY_FEE_MICROLAMPORTS : Nat := 90000 * 1000000

/-- Model of `u32::MAX`: the largest consumed-unit count `try_into::<u32>()` accepts. -/
def U32_MAX : Nat := 2 ^ 32 - 1

/-- Model of `CalcFeeResult` from `src/fee.rs`. -/
structure CalcFeeResult where
  priority_fee : Nat
  units : Nat
  prioritization_fees : List RpcPrioritizationFee
deriving Repr, DecidableEq

/-- Model of `TransactionBuilder` from `src/transaction.rs` (state fields only). -/
structure TransactionBuilder where
  instructions : List Instruction := []
  lookup_tables_keys : Option (List Pubkey) := none
  address_lookup_tables : Option (List AddressLookupTableAccount) := none
deriving Repr, DecidableEq

/-- Model of `TransactionBuilder::prepend_compute_budget_instructions`: fails when any
instruction already targets the compute-budget program, otherwise splices the
limit and price instructions in front of the sequence. -/
def TransactionBuilder.prepend_compute_budget_instructions
    (b : TransactionBuilder) (units : Nat) (priority_fees : Nat) :
    Except Error TransactionBuilder :=
  if b.instructions.any (fun ix => ix.program_id == computeBudgetProgramID) then
    .error .ComputeBudgetAlreadyPresent
  else
    .ok { b with
          instructions :=
            setComputeUnitLimit units :: setComputeUnitPrice priority_fees ::
              b.instructions }

/-- Model of `TransactionBuilder::calc_fee_internal` from `src/fee.rs`.  `Vec::sort`
(stable ascending) is modelled by `List.insertionSort (· ≤ ·)`, which produces
the identical list of `Nat` values.  The source indexes `sorted_fees[index]`,
which panics on an empty vector; the (private) function is only called with
non-empty samples, and the model totalises the indexing with `List.getD`. -/
def TransactionBuilder.calc_fee_internal (_b : TransactionBuilder)
    (prioritization_fees : List RpcPrioritizationFee)
    (sim_result : RpcSimulateTransactionResult)
    (max_prioritization_fee : Nat) (percentile : Option Nat) :
    Except Error CalcFeeResult :=
  let percentile := min (percentile.getD 75) 100
  let sorted_fees :=
    List.insertionSort (· ≤ ·) (prioritization_fees.map (fun f => f.prioritization_fee))
  let index := (sorted_fees.length * percentile - 1) / 100
  let priority_fee := min (sorted_fees.getD index 0) max_prioritization_fee
  if priority_fee > MAX_ACCEPTABLE_PRIORITY_FEE_MICROLAMPORTS then
    .error (.PriorityFeeTooHigh priority_fee MAX_ACCEPTABLE_PRIORITY_FEE_MICROLAMPORTS)
  else
    match sim_result.units_consumed with
    | none => .error (.InvalidComputeUnits 0 "RPC returned no units")
    | some compute_unit_limit =>
      if compute_unit_limit ≤ U32_MAX then
        let buffered_limit :=
          min (min (compute_unit_limit + compute_unit_limit / 10) U32_MAX)
            SOLANA_MAX_COMPUTE_UNITS
        .ok { priority_fee := priority_fee, units := buffered_limit,
              prioritization_fees := prioritization_fees }
      else
        .error .NumConversionError

/-- Model of `solana_message::VersionedMessage`: either a v0 message compiled against
address lookup tables or a legacy message. -/
inductive VersionedMessage where
  | v0 (payer : Pubkey) (instructions : List Instruction)
      (tables : List AddressLookupTableAccount) (recent_blockhash : BlockHash)
  | legacy (payer : Pubkey) (instructions : List Instruction)
      (recent_blockhash : BlockHash)
deriving Repr, DecidableEq

/-- Model of `solana_transaction::versioned::VersionedTransaction`: the compiled
message.  Signatures are produced by the external signing SDK (out of scope)
and never inspected by the verified operations, so they are not modelled. -/
structure VersionedTransaction where
  message : VersionedMessage
deriving Repr, DecidableEq

/-- Model of `Message::try_compile` / `Message::new_with_blockhash` belong to the
external SDK (message compilation is out of the specification's scope); the
model packs the inputs into a message and never fails. -/
def try_compile (payer : Pubkey) (instructions : List Instruction)
    (tables : List AddressLookupTableAccount) (recent_blockhash : BlockHash) :
    Except Error VersionedMessage :=
  .ok (.v0 payer instructions tables recent_blockhash)

/-- The operation kinds counted by `CounterRpcProvider` (`RpcMethod` in
`src/rpc.rs`). -/
inductive RpcMethod where
  | blockhash
  | lookup
  | simulate
  | send
  | fees
deriving Repr, DecidableEq

/-- The `SolanaRpcProvider` trait from `src/lib.rs`.  An implementation over
carrier state `σ` maps a state to a successor state plus an `Except` result;
the config argument of `send_and_confirm_transaction` carries no modelled
fields. -/
structure SolanaRpcProvider (σ : Type) where
  get_recent_prioritization_fees :
    σ → List Pubkey → σ × Except Error (List RpcPrioritizationFee)
  get_lookup_table_accounts :
    σ → List Pubkey → σ × Except Error (List AddressLookupTableAccount)
  get_latest_blockhash : σ → σ × Except Error BlockHash
  simulate_transaction :
    σ → VersionedTransaction → RpcSimulateTransactionConfig →
      σ × Except Error RpcSimulateTransactionResult
  send_and_confirm_transaction : σ → VersionedTransaction → σ × Except Error Signature

/-- State of `CounterRpcProvider` (`src/rpc.rs`, `src/rpc/counter.rs`): the
wrapped provider's state plus one monotone counter per operation kind. -/
structure CounterState (σ : Type) where
  inner : σ
  counters : RpcMethod → Nat

/-- Increment the counter of one method, leaving the others unchanged. -/
def bumpCounter (c : RpcMethod → Nat) (m : RpcMethod) : RpcMethod → Nat :=
  fun x => if x = m then c x + 1 else c x

/-- The `SolanaRpcProvider` impl of `CounterRpcProvider` from
`src/rpc/counter.rs`: every operation increments its counter, then forwards
to the wrapped provider unchanged. -/
def CounterRpcProvider (p : SolanaRpcProvider σ) : SolanaRpcProvider (CounterState σ) where
  get_recent_prioritization_fees s accounts :=
    let (i, r) := p.get_recent_prioritization_fees s.inner accounts
    ({ inner := i, counters := bumpCounter s.counters .fees }, r)
  get_lookup_table_accounts s pubkeys :=
    let (i, r) := p.get_lookup_table_accounts s.inner pubkeys
    ({ inner := i, counters := bumpCounter s.counters .lookup }, r)
  get_latest_blockhash s :=
    let (i, r) := p.get_latest_blockhash s.inner
    ({ inner := i, counters := bumpCounter s.counters .blockhash }, r)
  simulate_transaction s tx config :=
    let (i, r) := p.simulate_transaction s.inner tx config
    ({ inner := i, counters := bumpCounter s.counters .simulate }, r)
  send_and_confirm_transaction s tx :=
    let (i, r) := p.send_and_confirm_transaction s.inner tx
    ({ inner := i, counters := bumpCounter s.counters .send }, r)

/-- A `moka::future::Cache` keyed by `Pubkey` with a time-to-live: entries
record their insertion time; expiry is checked lazily at read time (an entry
inserted at `t0` is live at `now` iff `now < t0 + ttl`). -/
structure Cache (β : Type) where
  ttl : Nat
  entries : List (Pubkey × β × Nat)
deriving Repr

/-- Read a key at time `now`: the entry is returned only while unexpired. -/
def Cache.get (c : Cache β) (now : Nat) (k : Pubkey) : Option β :=
  match c.entries.find? (fun e => e.1 == k) with
  | some (_, v, t0) => if now < t0 + c.ttl then some v else none
  | none => none

/-- Insert a key at time `now`, replacing any previous entry for it. -/
def Cache.insert (c : Cache β) (now : Nat) (k : Pubkey) (v : β) : Cache β :=
  { c with entries := (k, v, now) :: c.entries.filter (fun e => ¬ e.1 == k) }

/-- State of `LookupTableCacheProvider` (`src/rpc.rs`): the wrapped provider's
state, the positive lookup-table cache, and the negative ("known missing")
cache with its own independent TTL. -/
structure LookupTableCacheState (σ : Type) where
  inner : σ
  lookup_cache : Cache AddressLookupTableAccount
  negative_cache : Cache Unit

/-- Model of `LookupTableCacheProvider::try_get_lookup_account` (`src/rpc/lookup.rs`):
`lookup_cache.try_get_with(pubkey, ...)` returns a live cached value without
touching the wrapped provider; on a miss it fetches the single key through
the wrapped provider, maps an empty result to `Error::LookupTableMiss` (not
cached — moka caches only `Ok` init results), and caches a non-empty result's
first table.  `handle_cache_error` unwraps the `Arc` and in this sequential
model always restores the original error. -/
def try_get_lookup_account (p : SolanaRpcProvider σ)
    (s : LookupTableCacheState σ) (now : Nat) (pubkey : Pubkey) :
    LookupTableCacheState σ × Except Error AddressLookupTableAccount :=
  match s.lookup_cache.get now pubkey with
  | some v => (s, .ok v)
  | none =>
    let (i, r) := p.get_lookup_table_accounts s.inner [pubkey]
    match r with
    | .error e => ({ s with inner := i }, .error e)
    | .ok [] => ({ s with inner := i }, .error .LookupTableMiss)
    | .ok (a :: _) =>
        ({ s with inner := i, lookup_cache := s.lookup_cache.insert now pubkey a },
          .ok a)

/-- Model of `LookupTableCacheProvider::get_lookup_table_accounts`
(`src/rpc/lookup.rs`): resolve each key in turn; push resolved tables,
record `LookupTableMiss` keys in the negative cache and omit them from the
result, and propagate any other error immediately. -/
def lookupCacheGetAccounts (p : SolanaRpcProvider σ) (now : Nat) :
    LookupTableCacheState σ → List Pubkey →
      LookupTableCacheState σ × Except Error (List AddressLookupTableAccount)
  | s, [] => (s, .ok [])
  | s, pubkey :: rest =>
    match try_get_lookup_account p s now pubkey with
    | (s1, .ok account) =>
      match lookupCacheGetAccounts p now s1 rest with
      | (s2, .ok resolved) => (s2, .ok (account :: resolved))
      | (s2, .error e) => (s2, .error e)
    | (s1, .error .LookupTableMiss) =>
        lookupCacheGetAccounts p now
          { s1 with negative_cache := s1.negative_cache.insert now pubkey () } rest
    | (s1, .error e) => (s1, .error e)

/-- State of `BlockHashCacheProvider` (`src/rpc.rs`,
`src/rpc/blockhash.rs`): the wrapped provider's state and the capacity-one
TTL cache slot (`Cache<(), Hash>` built with `max_capacity(1)`). -/
structure BlockHashCacheState (σ : Type) where
  inner : σ
  ttl : Nat
  blockhash : Option (BlockHash × Nat)

/-- The miss path of the blockhash slot's `try_get_with`: fetch from the
wrapped provider; store the value with its fetch time on success, propagate
the error (uncached) on failure. -/
def blockhashFetch (p : SolanaRpcProvider σ) (s : BlockHashCacheState σ) (now : Nat) :
    BlockHashCacheState σ × Except Error BlockHash :=
  let (i, r) := p.get_latest_blockhash s.inner
  match r with
  | .ok h => ({ s with inner := i, blockhash := some (h, now) }, .ok h)
  | .error e => ({ s with inner := i }, .error e)

/-- Model of `BlockHashCacheProvider::get_latest_blockhash` (`src/rpc/blockhash.rs`):
return the slot's value while unexpired, otherwise fetch, store and return. -/
def blockhashGetLatest (p : SolanaRpcProvider σ) (s : BlockHashCacheState σ) (now : Nat) :
    BlockHashCacheState σ × Except Error BlockHash :=
  match s.blockhash with
  | some (h, t0) =>
    if now < t0 + s.ttl then (s, .ok h) else blockhashFetch p s now
  | none => blockhashFetch p s now

/-- Model of `TransactionBuilder::get_latest_blockhash` (`src/transaction.rs`): a plain
forward to the provider. -/
def TransactionBuilder.get_latest_blockhash (p : SolanaRpcProvider σ) (s : σ) :
    σ × Except Error BlockHash :=
  p.get_latest_blockhash s

/-- Model of `TransactionBuilder::create_message` (`src/transaction.rs`): explicit
tables take precedence; otherwise lookup keys are resolved through the
provider; otherwise a legacy message is built.  The blockhash is always
fetched fresh through the provider at compile time. -/
def TransactionBuilder.create_message (b : TransactionBuilder)
    (p : SolanaRpcProvider σ) (payer : Pubkey) (s : σ) :
    σ × Except Error VersionedMessage :=
  match b.address_lookup_tables with
  | some accounts =>
    let (s1, rh) := TransactionBuilder.get_latest_blockhash p s
    match rh with
    | .error e => (s1, .error e)
    | .ok h => (s1, try_compile payer b.instructions accounts h)
  | none =>
    match b.lookup_tables_keys with
    | some keys =>
      let (s1, ra) := p.get_lookup_table_accounts s keys
      match ra with
      | .error e => (s1, .error e)
      | .ok accounts =>
        let (s2, rh) := TransactionBuilder.get_latest_blockhash p s1
        match rh with
        | .error e => (s2, .error e)
        | .ok h => (s2, try_compile payer b.instructions accounts h)
    | none =>
      let (s1, rh) := TransactionBuilder.get_latest_blockhash p s
      match rh with
      | .error e => (s1, .error e)
      | .ok h => (s1, .ok (.legacy payer b.instructions h))

/-- Model of `TransactionBuilder::unsigned_tx` (`src/transaction.rs`): compile the
message and wrap it with placeholder signatures (not modelled). -/
def TransactionBuilder.unsigned_tx (b : TransactionBuilder)
    (p : SolanaRpcProvider σ) (payer : Pubkey) (s : σ) :
    σ × Except Error VersionedTransaction :=
  match b.create_message p payer s with
  | (s1, .error e) => (s1, .error e)
  | (s1, .ok m) => (s1, .ok { message := m })

/-- Model of `TransactionBuilder::simulate_internal` (`src/transaction.rs`): forwards
to the provider (the base64 debug encoding is logging only). -/
def TransactionBuilder.simulate_internal (_b : TransactionBuilder)
    (p : SolanaRpcProvider σ) (s : σ) (tx : VersionedTransaction)
    (config : RpcSimulateTransactionConfig) :
    σ × Except Error RpcSimulateTransactionResult :=
  p.simulate_transaction s tx config

/-- Model of `TransactionBuilder::get_recent_prioritization_fees` (`src/fee.rs`):
forwards to the provider, wrapping any error into `SolanaRpcError` with the
source's message format. -/
def get_recent_prioritization_fees (p : SolanaRpcProvider σ) (s : σ)
    (accounts : List Pubkey) : σ × Except Error (List RpcPrioritizationFee) :=
  let (s1, r) := p.get_recent_prioritization_fees s accounts
  match r with
  | .ok fees => (s1, .ok fees)
  | .error e =>
      (s1, .error (.SolanaRpcError
        ("failed to get_recent_prioritization_fees: " ++ e.message)))

/-- Model of `TransactionBuilder::calc_fee` (`src/fee.rs`): reject an empty
instruction sequence, fetch fee samples (empty samples are an error, not a
zero default), build the unsigned transaction, simulate it without signature
verification, then run `calc_fee_internal`. -/
def TransactionBuilder.calc_fee (b : TransactionBuilder)
    (p : SolanaRpcProvider σ) (payer : Pubkey) (s : σ) (accounts : List Pubkey)
    (max_prioritization_fee : Nat) (percentile : Option Nat) :
    σ × Except Error CalcFeeResult :=
  if b.instructions.isEmpty then (s, .error .NoInstructions)
  else
    let (s1, rf) := get_recent_prioritization_fees p s accounts
    match rf with
    | .error e => (s1, .error e)
    | .ok prioritization_fees =>
      if prioritization_fees.isEmpty then
        (s1, .error (.SolanaRpcError "No prioritization fees available"))
      else
        match b.unsigned_tx p payer s1 with
        | (s2, .error e) => (s2, .error e)
        | (s2, .ok tx) =>
          match b.simulate_internal p s2 tx { sig_verify := false } with
          | (s3, .error e) => (s3, .error e)
          | (s3, .ok sim_result) =>
            (s3, b.calc_fee_internal prioritization_fees sim_result
              max_prioritization_fee percentile)

/-- Model of `TransactionBuilder::with_priority_fees` (`src/fee.rs`): when a
compute-budget instruction is already present, warn and return the builder
unchanged as a success; otherwise compute the fee and prepend the
compute-budget instructions. -/
def TransactionBuilder.with_priority_fees (b : TransactionBuilder)
    (p : SolanaRpcProvider σ) (payer : Pubkey) (s : σ) (accounts : List Pubkey)
    (max_prioritization_fee : Nat) (percentile : Option Nat) :
    σ × Except Error TransactionBuilder :=
  if b.instructions.any (fun ix => ix.program_id == computeBudgetProgramID) then
    (s, .ok b)
  else
    match b.calc_fee p payer s accounts max_prioritization_fee percentile with
    | (s1, .error e) => (s1, .error e)
    | (s1, .ok result) =>
        (s1, b.prepend_compute_budget_instructions result.units result.priority_fee)

/-- Model of `TransactionBuilder::with_lookup_keys` (`src/transaction.rs`): extend the
existing key list, or start one. -/
def TransactionBuilder.with_lookup_keys (b : TransactionBuilder)
    (keys : List Pubkey) : TransactionBuilder :=
  match b.lookup_tables_keys with
  | some existing => { b with lookup_tables_keys := some (existing ++ keys) }
  | none => { b with lookup_tables_keys := some keys }

/-- Model of `TransactionBuilder::with_address_tables` (`src/transaction.rs`): extend
the existing table list, or start one. -/
def TransactionBuilder.with_address_tables (b : TransactionBuilder)
    (tables : List AddressLookupTableAccount) : TransactionBuilder :=
  match b.address_lookup_tables with
  | some existing =>
      { b with address_lookup_tables := some (existing ++ tables) }
  | none => { b with address_lookup_tables := some tables }

/-- Model of `TransactionBuilder::with_memo` (`src/transaction.rs`): push a memo
instruction at the end of the sequence. -/
def TransactionBuilder.with_memo (b : TransactionBuilder) (memo : List Nat)
    (signer_pubkeys : List Pubkey) : TransactionBuilder :=
  { b with instructions := b.instructions ++ [build_memo memo signer_pubkeys] }

/-- Model of `TransactionBuilder::push` (`src/transaction.rs`): push one instruction
(the `IntoInstruction` conversion is applied by the caller in this model). -/
def TransactionBuilder.push (b : TransactionBuilder) (ix : Instruction) :
    TransactionBuilder :=
  { b with instructions := b.instructions ++ [ix] }

/-- Model of `TransactionBuilder::append` (`src/transaction.rs`): extend the sequence
with the built instructions of the given builders. -/
def TransactionBuilder.append (b : TransactionBuilder) (ixs : List Instruction) :
    TransactionBuilder :=
  { b with instructions := b.instructions ++ ixs }

/-- The parsed form of a lookup-table account
(`LookupTableAccountType` from `solana_account_decoder`). -/
inductive LookupTableAccountType where
  | uninitialized
  | lookupTable (addresses : List Pubkey)
deriving Repr, DecidableEq

/-- Model of `solana_account::Account`, reduced to what `process_lookup_tables`
reads: the account data as it parses (binary decoding of account data is
external SDK work out of the specification's scope).  `parsed = none` models
account data on which `parse_address_lookup_table` fails. -/
structure Account where
  parsed : Option LookupTableAccountType
deriving Repr, DecidableEq

/-- Model of `parse_address_lookup_table` from `solana_account_decoder`: succeeds with
the parsed table type or fails with a parse error. -/
def parse_address_lookup_table (account : Account) :
    Except Error LookupTableAccountType :=
  match account.parsed with
  | some t => .ok t
  | none => .error .ParseAccountError

/-- Model of `process_lookup_tables` from `src/lookup.rs`: walk the keys and fetched
accounts in lockstep; skip missing accounts, uninitialized tables, and tables
with an empty address list (warn-and-continue in the source); keep an
initialized, non-empty table paired with its own key; propagate a parse
failure.  The source indexes `lookup_tables[i]` while iterating `accounts`,
which panics when `accounts` is longer; the model renders that panic as a
`CustomError`. -/
def process_lookup_tables :
    List Pubkey → List (Option Account) →
      Except Error (List AddressLookupTableAccount)
  | _, [] => .ok []
  | [], _ :: _ => .error (.CustomError "index out of bounds")
  | k :: keys, maybe_account :: rest =>
    match maybe_account with
    | none => process_lookup_tables keys rest
    | some account =>
      match parse_address_lookup_table account with
      | .error e => .error e
      | .ok .uninitialized => process_lookup_tables keys rest
      | .ok (.lookupTable addresses) =>
        if addresses.isEmpty then process_lookup_tables keys rest
        else
          match process_lookup_tables keys rest with
          | .ok tail => .ok ({ key := k, addresses := addresses } :: tail)
          | .error e => .error e

/-- Model of `fetch_lookup_tables` from `src/lookup.rs`: empty input short-circuits to
an empty result; otherwise fetch the raw accounts (`get_multiple_accts`,
whose transport errors are wrapped into `SolanaRpcError` with the source's
message format) and process them. -/
def fetch_lookup_tables (lookup_tables : List Pubkey)
    (get_multiple_accounts : List Pubkey → Except String (List (Option Account))) :
    Except Error (List AddressLookupTableAccount) :=
  if lookup_tables.isEmpty then .ok []
  else
    match get_multiple_accounts lookup_tables with
    | .error e =>
        .error (.SolanaRpcError ("failed to get lookup table accounts: " ++ e))
    | .ok accounts => process_lookup_tables lookup_tables accounts

/-! ## Spec-side definitions

The specification describes the percentile selection as "the sorted sample at
index `floor((n·p − 1)/100)` clamped to `[0, n−1]`, capped by `maxFee`".
These definitions transcribe that formula (they are the spec's words, to be
compared against `calc_fee_internal`, which is transcribed from the source). -/

/-- The fee rates sorted ascending (the spec's `s`). -/
def sortedFeeRates (fees : List RpcPrioritizationFee) : List Nat :=
  List.insertionSort (· ≤ ·) (fees.map (fun f => f.prioritization_fee))

/-- The spec's percentile, clamped to `[0,100]` with default 75. -/
def clampedPercentile (pct : Option Nat) : Nat := min (pct.getD 75) 100

/-- The spec's selection index: `floor((n·p − 1)/100)` clamped to `[0, n−1]`
(the lower clamp is implicit in truncated `Nat` subtraction). -/
def specFeeIndex (n p : Nat) : Nat := min ((n * p - 1) / 100) (n - 1)

/-- The spec's resulting priority fee: `min(s[i], maxFee)`. -/
def specPriorityFee (fees : List RpcPrioritizationFee) (maxFee : Nat)
    (pct : Option Nat) : Nat :=
  min ((sortedFeeRates fees).getD
      (specFeeIndex (sortedFeeRates fees).length (clampedPercentile pct)) 0)
    maxFee

/-! ## Helper lemmas -/

/-- For a non-empty sample list and a percentile within `[0,100]`, the spec's
clamp to `n − 1` never bites: the raw index is already in range. -/
theorem specFeeIndex_eq (n p : Nat) (hn : 1 ≤ n) (hp : p ≤ 100) :
    specFeeIndex n p = (n * p - 1) / 100 := by
  unfold specFeeIndex
  refine Nat.min_eq_left ?_
  have hmul : n * p ≤ n * 100 := Nat.mul_le_mul_left n hp
  have h2 : (n * p - 1) / 100 < n := by
    rw [Nat.div_lt_iff_lt_mul (by norm_num : 0 < 100)]
    omega
  omega

/-- Lemma: `calc_fee_internal` characterised through the spec-side fee formula: for
non-empty samples the code's unclamped index agrees with the spec's clamped
one, and the whole function reduces to a branch on the ceiling check, the
consumed-unit option, and the `u32` bound. -/
theorem calc_fee_internal_eq (b : TransactionBuilder)
    (fees : List RpcPrioritizationFee) (sim : RpcSimulateTransactionResult)
    (maxFee : Nat) (pct : Option Nat) (hne : fees ≠ []) :
    b.calc_fee_internal fees sim maxFee pct =
      (if specPriorityFee fees maxFee pct >
          MAX_ACCEPTABLE_PRIORITY_FEE_MICROLAMPORTS then
        .error (.PriorityFeeTooHigh (specPriorityFee fees maxFee pct)
          MAX_ACCEPTABLE_PRIORITY_FEE_MICROLAMPORTS)
      else
        match sim.units_consumed with
        | none => .error (.InvalidComputeUnits 0 "RPC returned no units")
        | some u =>
          if u ≤ U32_MAX then
            .ok { priority_fee := specPriorityFee fees maxFee pct,
                  units := min (min (u + u / 10) U32_MAX) SOLANA_MAX_COMPUTE_UNITS,
                  prioritization_fees := fees }
          else
            .error .NumConversionError) := by
  have hn : 1 ≤ (List.insertionSort (· ≤ ·)
      (fees.map fun f => f.prioritization_fee)).length := by
    rw [List.length_insertionSort, List.length_map]
    exact List.length_pos.mpr hne
  have hpf : specPriorityFee fees maxFee pct =
      min ((List.insertionSort (· ≤ ·)
          (fees.map fun f => f.prioritization_fee)).getD
        (((List.insertionSort (· ≤ ·)
            (fees.map fun f => f.prioritization_fee)).length *
              min (pct.getD 75) 100 - 1) / 100) 0) maxFee := by
    unfold specPriorityFee sortedFeeRates clampedPercentile
    rw [specFeeIndex_eq _ _ hn (Nat.min_le_right _ _)]
  rw [hpf]
  rfl

/-- C1: for every non-empty fee-sample list, `calc_fee_internal` either
returns the priority fee `min(s[i], maxFee)` — `s` the samples sorted
ascending and `i = floor((n·p − 1)/100)` clamped to `[0, n−1]`, `p` the
percentile clamped to `[0,100]` with default 75 — or, whenever that value
exceeds the hard ceiling constant, fails with `PriorityFeeTooHigh` carrying
the computed value and the ceiling; it never silently clamps to the
ceiling. -/
theorem calc_fee_priority_fee_spec (b : TransactionBuilder)
    (fees : List RpcPrioritizationFee) (sim : RpcSimulateTransactionResult)
    (maxFee : Nat) (pct : Option Nat) (hne : fees ≠ []) :
    (specPriorityFee fees maxFee pct ≤ MAX_ACCEPTABLE_PRIORITY_FEE_MICROLAMPORTS →
      ∀ r, b.calc_fee_internal fees sim maxFee pct = .ok r →
        r.priority_fee = specPriorityFee fees maxFee pct) ∧
    (MAX_ACCEPTABLE_PRIORITY_FEE_MICROLAMPORTS < specPriorityFee fees maxFee pct →
      b.calc_fee_internal fees sim maxFee pct =
        .error (.PriorityFeeTooHigh (specPriorityFee fees maxFee pct)
          MAX_ACCEPTABLE_PRIORITY_FEE_MICROLAMPORTS)) := by
  rw [calc_fee_internal_eq b fees sim maxFee pct hne]
  constructor
  · intro hle r hok
    rw [if_neg (by omega)] at hok
    cases hu : sim.units_consumed with
    | none => rw [hu] at hok; exact absurd hok (by simp)
    | some u =>
      rw [hu] at hok
      dsimp only at hok
      by_cases h2 : u ≤ U32_MAX
      · rw [if_pos h2] at hok
        cases hok
        rfl
      · rw [if_neg h2] at hok
        exact absurd hok (by simp)
  · intro hgt
    rw [if_pos (by omega)]

/-- C1 witness: three samples `[5, 3, 7]`, default percentile 75, `maxFee`
100 — sorted `[3, 5, 7]`, index 2, fee `min(7, 100) = 7`. -/
theorem calc_fee_priority_fee_spec_witness :
    specPriorityFee [⟨0, 5⟩, ⟨0, 3⟩, ⟨0, 7⟩] 100 none = 7 ∧
    (⟨[], none, none⟩ : TransactionBuilder).calc_fee_internal
        [⟨0, 5⟩, ⟨0, 3⟩, ⟨0, 7⟩] ⟨some 1000⟩ 100 none =
      .ok ⟨7, 1100, [⟨0, 5⟩, ⟨0, 3⟩, ⟨0, 7⟩]⟩ ∧
    (⟨7, 1100, [⟨0, 5⟩, ⟨0, 3⟩, ⟨0, 7⟩]⟩ : CalcFeeResult).priority_fee =
      specPriorityFee [⟨0, 5⟩, ⟨0, 3⟩, ⟨0, 7⟩] 100 none := by
  refine ⟨by decide, by decide, ?_⟩
  exact (calc_fee_priority_fee_spec ⟨[], none, none⟩ [⟨0, 5⟩, ⟨0, 3⟩, ⟨0, 7⟩]
    ⟨some 1000⟩ 100 none (by decide)).1 (by decide)
    ⟨7, 1100, [⟨0, 5⟩, ⟨0, 3⟩, ⟨0, 7⟩]⟩ (by decide)

/-- C7: for non-empty samples below the ceiling, the returned compute-unit
limit is the simulation's consumed units plus a 10% buffer capped at the
ledger maximum; a missing consumed-unit count fails with the
`InvalidComputeUnits` condition, and a count exceeding `u32::MAX` fails with
the propagated conversion error rather than being truncated. -/
theorem calc_fee_units_spec (b : TransactionBuilder)
    (fees : List RpcPrioritizationFee) (sim : RpcSimulateTransactionResult)
    (maxFee : Nat) (pct : Option Nat) (hne : fees ≠ [])
    (hfee : specPriorityFee fees maxFee pct ≤
      MAX_ACCEPTABLE_PRIORITY_FEE_MICROLAMPORTS) :
    (sim.units_consumed = none →
      b.calc_fee_internal fees sim maxFee pct =
        .error (.InvalidComputeUnits 0 "RPC returned no units")) ∧
    (∀ u, sim.units_consumed = some u → U32_MAX < u →
      b.calc_fee_internal fees sim maxFee pct = .error .NumConversionError) ∧
    (∀ u, sim.units_consumed = some u → u ≤ U32_MAX →
      b.calc_fee_internal fees sim maxFee pct =
        .ok { priority_fee := specPriorityFee fees maxFee pct,
              units := min (u + u / 10) SOLANA_MAX_COMPUTE_UNITS,
              prioritization_fees := fees }) := by
  rw [calc_fee_internal_eq b fees sim maxFee pct hne]
  rw [if_neg (by omega)]
  refine ⟨fun hu => by rw [hu],
    fun u hu hgt => by rw [hu]; dsimp only; rw [if_neg (by omega)],
    fun u hu hle => ?_⟩
  rw [hu]
  dsimp only
  rw [if_pos hle]
  have : min (min (u + u / 10) U32_MAX) SOLANA_MAX_COMPUTE_UNITS =
      min (u + u / 10) SOLANA_MAX_COMPUTE_UNITS := by
    rw [Nat.min_assoc]
    have : min U32_MAX SOLANA_MAX_COMPUTE_UNITS = SOLANA_MAX_COMPUTE_UNITS :=
      Nat.min_eq_right (by decide)
    rw [this]
  rw [this]

/-- C7 witness: consumed units 2000000 buffer to 2200000, capped at the
1400000 ledger maximum; and `u32` overflow at `2^32` consumed units. -/
theorem calc_fee_units_spec_witness :
    (⟨[], none, none⟩ : TransactionBuilder).calc_fee_internal
        [⟨0, 5⟩] ⟨some 2000000⟩ 100 none =
      .ok ⟨5, 1400000, [⟨0, 5⟩]⟩ ∧
    (⟨[], none, none⟩ : TransactionBuilder).calc_fee_internal
        [⟨0, 5⟩] ⟨some (2 ^ 32)⟩ 100 none = .error .NumConversionError ∧
    (⟨[], none, none⟩ : TransactionBuilder).calc_fee_internal
        [⟨0, 5⟩] ⟨none⟩ 100 none =
      .error (.InvalidComputeUnits 0 "RPC returned no units") := by
  have h := calc_fee_units_spec ⟨[], none, none⟩ [⟨0, 5⟩] ⟨some 2000000⟩ 100 none
    (by decide) (by decide)
  have h2 := calc_fee_units_spec ⟨[], none, none⟩ [⟨0, 5⟩] ⟨some (2 ^ 32)⟩ 100 none
    (by decide) (by decide)
  have h3 := calc_fee_units_spec ⟨[], none, none⟩ [⟨0, 5⟩] ⟨none⟩ 100 none
    (by decide) (by decide)
  refine ⟨?_, h2.2.1 (2 ^ 32) rfl (by decide), h3.1 rfl⟩
  have := h.2.2 2000000 rfl (by decide)
  simpa using this

/-- The compute-budget scan used by `prepend_compute_budget_instructions` and
`with_priority_fees`, as an existential. -/
theorem any_cb_iff (l : List Instruction) :
    (l.any fun ix => ix.program_id == computeBudgetProgramID) = true ↔
      ∃ ix ∈ l, ix.program_id = computeBudgetProgramID := by
  simp [List.any_eq_true]

/-- C2: prepending compute-budget instructions fails with the conflict error
when any instruction already targets the compute-budget program; on a clean
sequence it succeeds with the limit instruction first, the price instruction
second, and the original sequence unchanged after them (so the length grows
by exactly two), and prepending again on the result always fails. -/
theorem prepend_compute_budget_spec (b : TransactionBuilder)
    (units pf u2 p2 : Nat) :
    ((∃ ix ∈ b.instructions, ix.program_id = computeBudgetProgramID) →
      b.prepend_compute_budget_instructions units pf =
        .error .ComputeBudgetAlreadyPresent) ∧
    ((∀ ix ∈ b.instructions, ix.program_id ≠ computeBudgetProgramID) →
      b.prepend_compute_budget_instructions units pf =
        .ok { b with
              instructions := setComputeUnitLimit units ::
                setComputeUnitPrice pf :: b.instructions } ∧
      (setComputeUnitLimit units :: setComputeUnitPrice pf ::
        b.instructions).length = b.instructions.length + 2 ∧
      TransactionBuilder.prepend_compute_budget_instructions
          { b with
            instructions := setComputeUnitLimit units ::
              setComputeUnitPrice pf :: b.instructions } u2 p2 =
        .error .ComputeBudgetAlreadyPresent) := by
  constructor
  · intro h
    unfold TransactionBuilder.prepend_compute_budget_instructions
    rw [if_pos ((any_cb_iff b.instructions).mpr h)]
  · intro h
    have hfalse : ¬ ((b.instructions.any
        fun ix => ix.program_id == computeBudgetProgramID) = true) := by
      intro hb
      obtain ⟨ix, hix, hp⟩ := (any_cb_iff _).mp hb
      exact absurd hp (h ix hix)
    refine ⟨?_, by simp, ?_⟩
    · unfold TransactionBuilder.prepend_compute_budget_instructions
      rw [if_neg hfalse]
    · unfold TransactionBuilder.prepend_compute_budget_instructions
      rw [if_pos ((any_cb_iff _).mpr ⟨setComputeUnitLimit units, by simp, rfl⟩)]

/-- The builder of end-to-end scenario A: three transfer-like instructions
plus two memos, none targeting the compute-budget program. -/
def scenarioABuilder : TransactionBuilder :=
  { instructions := [⟨11, [1]⟩, ⟨11, [2]⟩, ⟨11, [3]⟩,
      build_memo [1] [], build_memo [2] []],
    lookup_tables_keys := none, address_lookup_tables := none }

/-- C2 witness: scenario A — five clean instructions,
`prepend(1000000, 200000)` yields seven entries led by the two budget
directives, and a second prepend fails. -/
theorem prepend_compute_budget_spec_witness :
    (∀ ix ∈ scenarioABuilder.instructions,
      ix.program_id ≠ computeBudgetProgramID) ∧
    scenarioABuilder.prepend_compute_budget_instructions 1000000 200000 =
      .ok { scenarioABuilder with
            instructions := setComputeUnitLimit 1000000 ::
              setComputeUnitPrice 200000 :: scenarioABuilder.instructions } ∧
    (setComputeUnitLimit 1000000 :: setComputeUnitPrice 200000 ::
      scenarioABuilder.instructions).length = 7 ∧
    TransactionBuilder.prepend_compute_budget_instructions
        { scenarioABuilder with
          instructions := setComputeUnitLimit 1000000 ::
            setComputeUnitPrice 200000 :: scenarioABuilder.instructions } 1 1 =
      .error .ComputeBudgetAlreadyPresent := by
  have h := (prepend_compute_budget_spec scenarioABuilder 1000000 200000 1 1).2
    (by decide)
  exact ⟨by decide, h.1, by decide, h.2.2⟩

/-- A deterministic test provider over a call-count state: each operation
advances the state by one; fee samples, lookup tables and simulated unit
counts are the given constants, and the blockhash differs on every call. -/
def testProvider (fees : List RpcPrioritizationFee)
    (tables : Pubkey → Option AddressLookupTableAccount)
    (units : Option Nat) : SolanaRpcProvider Nat where
  get_recent_prioritization_fees s _ := (s + 1, .ok fees)
  get_lookup_table_accounts s ks := (s + 1, .ok (ks.filterMap tables))
  get_latest_blockhash s := (s + 1, .ok (100 + s))
  simulate_transaction s _ _ := (s + 1, .ok { units_consumed := units })
  send_and_confirm_transaction s _ := (s + 1, .ok 0)

/-- C5: when the builder's instruction sequence already contains a
compute-budget instruction, `with_priority_fees` returns the builder
unchanged as a success with the provider state untouched (no provider
operation is invoked, under any provider and any instrumentation), and a
repeated application — with any provider, state and arguments — again
returns the identical builder (idempotence). -/
theorem with_priority_fees_noop_spec {σ σ2 : Type} (p : SolanaRpcProvider σ)
    (p2 : SolanaRpcProvider σ2) (b : TransactionBuilder)
    (payer payer2 : Pubkey) (s : σ) (s2 : σ2)
    (accounts accounts2 : List Pubkey) (maxFee maxFee2 : Nat)
    (pct pct2 : Option Nat)
    (h : ∃ ix ∈ b.instructions, ix.program_id = computeBudgetProgramID) :
    b.with_priority_fees p payer s accounts maxFee pct = (s, .ok b) ∧
    b.with_priority_fees p2 payer2 s2 accounts2 maxFee2 pct2 = (s2, .ok b) := by
  have hc := (any_cb_iff b.instructions).mpr h
  constructor <;>
    (unfold TransactionBuilder.with_priority_fees; rw [if_pos hc])

/-- C5 witness: a builder already carrying `set_compute_unit_limit` passes
through `with_priority_fees` unchanged, twice, with the provider state (a
call counter) untouched. -/
theorem with_priority_fees_noop_spec_witness :
    (∃ ix ∈ [setComputeUnitLimit 5, build_memo [1] []],
      ix.program_id = computeBudgetProgramID) ∧
    TransactionBuilder.with_priority_fees
        ⟨[setComputeUnitLimit 5, build_memo [1] []], none, none⟩
        (testProvider [⟨0, 10⟩] (fun _ => none) (some 1000)) 7 0 [] 100 none =
      (0, .ok ⟨[setComputeUnitLimit 5, build_memo [1] []], none, none⟩) ∧
    TransactionBuilder.with_priority_fees
        ⟨[setComputeUnitLimit 5, build_memo [1] []], none, none⟩
        (testProvider [⟨0, 10⟩] (fun _ => none) (some 1000)) 7 0 [] 50 (some 90) =
      (0, .ok ⟨[setComputeUnitLimit 5, build_memo [1] []], none, none⟩) := by
  have h := with_priority_fees_noop_spec
    (testProvider [⟨0, 10⟩] (fun _ => none) (some 1000))
    (testProvider [⟨0, 10⟩] (fun _ => none) (some 1000))
    ⟨[setComputeUnitLimit 5, build_memo [1] []], none, none⟩
    7 7 0 0 [] [] 100 50 none (some 90) (by decide)
  exact ⟨by decide, h.1, h.2⟩

/-- C6: `calc_fee` with a non-empty instruction sequence whose provider
reports an empty fee-sample list always fails with the named empty-samples
condition (the fixed `SolanaRpcError "No prioritization fees available"`
value) and never returns a result — in particular never a fee defaulted to
zero. -/
theorem calc_fee_empty_fees_spec {σ : Type} (p : SolanaRpcProvider σ)
    (b : TransactionBuilder) (payer : Pubkey) (s : σ)
    (accounts : List Pubkey) (maxFee : Nat) (pct : Option Nat) (i : σ)
    (hne : b.instructions ≠ [])
    (hfees : p.get_recent_prioritization_fees s accounts = (i, .ok [])) :
    b.calc_fee p payer s accounts maxFee pct =
      (i, .error (.SolanaRpcError "No prioritization fees available")) ∧
    ∀ s' r, b.calc_fee p payer s accounts maxFee pct ≠ (s', .ok r) := by
  have hmain : b.calc_fee p payer s accounts maxFee pct =
      (i, .error (.SolanaRpcError "No prioritization fees available")) := by
    unfold TransactionBuilder.calc_fee get_recent_prioritization_fees
    rw [if_neg (by simp [hne]), hfees]
    rfl
  refine ⟨hmain, fun s' r hcontra => ?_⟩
  rw [hmain] at hcontra
  exact absurd hcontra (by simp)

/-- C6 witness: one instruction, a provider whose fee samples are empty. -/
theorem calc_fee_empty_fees_spec_witness :
    (testProvider [] (fun _ => none) (some 1000)).get_recent_prioritization_fees
        0 [] = (1, .ok []) ∧
    TransactionBuilder.calc_fee ⟨[build_memo [1] []], none, none⟩
        (testProvider [] (fun _ => none) (some 1000)) 7 0 [] 100 none =
      (1, .error (.SolanaRpcError "No prioritization fees available")) := by
  refine ⟨by decide, ?_⟩
  exact (calc_fee_empty_fees_spec (testProvider [] (fun _ => none) (some 1000))
    ⟨[build_memo [1] []], none, none⟩ 7 0 [] 100 none 1 (by decide)
    (by decide)).1

/-- C9: the builder operations are pure value transforms — `push`, `append`
and `with_memo` only append at the end of the instruction sequence (leaving
the other fields untouched), while `with_lookup_keys` and
`with_address_tables` leave the instruction sequence untouched and extend
their respective list with the new entries after all earlier ones, never
replacing it. -/
theorem builder_ops_pure_spec (b : TransactionBuilder) (ix : Instruction)
    (ixs : List Instruction) (memo : List Nat) (signers keys : List Pubkey)
    (tables : List AddressLookupTableAccount) :
    b.push ix = { b with instructions := b.instructions ++ [ix] } ∧
    b.append ixs = { b with instructions := b.instructions ++ ixs } ∧
    b.with_memo memo signers =
      { b with instructions := b.instructions ++ [build_memo memo signers] } ∧
    (b.with_lookup_keys keys).instructions = b.instructions ∧
    (b.with_lookup_keys keys).address_lookup_tables = b.address_lookup_tables ∧
    (b.with_lookup_keys keys).lookup_tables_keys =
      some (b.lookup_tables_keys.getD [] ++ keys) ∧
    (b.with_address_tables tables).instructions = b.instructions ∧
    (b.with_address_tables tables).lookup_tables_keys = b.lookup_tables_keys ∧
    (b.with_address_tables tables).address_lookup_tables =
      some (b.address_lookup_tables.getD [] ++ tables) := by
  obtain ⟨bi, bk, bt⟩ := b
  cases bk <;> cases bt <;>
    exact ⟨rfl, rfl, rfl, rfl, rfl, rfl, rfl, rfl, rfl⟩

/-- A single-key `get_lookup_table_accounts` call, characterised by its
`try_get_lookup_account` step. -/
theorem lookupCacheGetAccounts_single {σ : Type} (p : SolanaRpcProvider σ)
    (s : LookupTableCacheState σ) (t : Nat) (k : Pubkey) :
    lookupCacheGetAccounts p t s [k] =
      (match try_get_lookup_account p s t k with
      | (s1, .ok a) => (s1, .ok [a])
      | (s1, .error .LookupTableMiss) =>
          ({ s1 with negative_cache := s1.negative_cache.insert t k () }, .ok [])
      | (s1, .error e) => (s1, .error e)) := by
  unfold lookupCacheGetAccounts
  rcases try_get_lookup_account p s t k with ⟨s1, r⟩
  rcases r with e | a
  · cases e <;> rfl
  · rfl

/-- Lemma: `try_get_lookup_account` on a live positive-cache entry returns it
without touching the wrapped provider. -/
theorem try_get_lookup_account_hit {σ : Type} (p : SolanaRpcProvider σ)
    (s : LookupTableCacheState σ) (t : Nat) (k : Pubkey)
    (a : AddressLookupTableAccount) (hhit : s.lookup_cache.get t k = some a) :
    try_get_lookup_account p s t k = (s, .ok a) := by
  unfold try_get_lookup_account
  rw [hhit]

/-- Lemma: `try_get_lookup_account` on a positive-cache miss fetches through the
wrapped provider. -/
theorem try_get_lookup_account_miss {σ : Type} (p : SolanaRpcProvider σ)
    (s : LookupTableCacheState σ) (t : Nat) (k : Pubkey)
    (hmiss : s.lookup_cache.get t k = none) :
    try_get_lookup_account p s t k =
      (match p.get_lookup_table_accounts s.inner [k] with
      | (i, .error e) => ({ s with inner := i }, .error e)
      | (i, .ok []) => ({ s with inner := i }, .error .LookupTableMiss)
      | (i, .ok (a :: _)) =>
          ({ s with inner := i, lookup_cache := s.lookup_cache.insert t k a },
            .ok a)) := by
  unfold try_get_lookup_account
  rw [hmiss]
  rcases p.get_lookup_table_accounts s.inner [k] with ⟨i, r⟩
  rcases r with e | l
  · rfl
  · cases l <;> rfl

/-- Reading a key just inserted at `now` succeeds while it is unexpired. -/
theorem Cache.get_insert_self {β : Type} (c : Cache β) (now t' : Nat)
    (k : Pubkey) (v : β) (hlive : t' < now + c.ttl) :
    (c.insert now k v).get t' k = some v := by
  unfold Cache.insert Cache.get
  rw [List.find?_cons_of_pos _ (by simp)]
  dsimp only
  rw [if_pos hlive]

/-- Unfolding of the counter decorator's table-resolution operation. -/
theorem counter_lookup_eq {σ : Type} (p : SolanaRpcProvider σ)
    (s : CounterState σ) (ks : List Pubkey) (i : σ)
    (r : Except Error (List AddressLookupTableAccount))
    (hpr : p.get_lookup_table_accounts s.inner ks = (i, r)) :
    (CounterRpcProvider p).get_lookup_table_accounts s ks =
      ({ inner := i, counters := bumpCounter s.counters .lookup }, r) := by
  simp [CounterRpcProvider, hpr]

/-- C4: place a counting decorator beneath the lookup-table cache; when a
key misses the positive cache and then resolves successfully, the underlying
call counter rises by exactly one, and a second resolution of the same key
before the positive-cache TTL expires returns the cached table with the
entire state — counters included — unchanged: two calls within the TTL issue
exactly one underlying fetch. -/
theorem lookup_cache_single_fetch_spec {σ : Type} (p : SolanaRpcProvider σ)
    (s : LookupTableCacheState (CounterState σ)) (t t' : Nat) (k : Pubkey)
    (a : AddressLookupTableAccount)
    (hmiss : s.lookup_cache.get t k = none)
    (hok : (lookupCacheGetAccounts (CounterRpcProvider p) t s [k]).2 = .ok [a])
    (ht' : t' < t + s.lookup_cache.ttl) :
    lookupCacheGetAccounts (CounterRpcProvider p) t'
        (lookupCacheGetAccounts (CounterRpcProvider p) t s [k]).1 [k] =
      ((lookupCacheGetAccounts (CounterRpcProvider p) t s [k]).1, .ok [a]) ∧
    (lookupCacheGetAccounts (CounterRpcProvider p) t s [k]).1.inner.counters
        .lookup = s.inner.counters .lookup + 1 := by
  rcases hpr0 : p.get_lookup_table_accounts s.inner.inner [k] with ⟨i0, r0⟩
  have hpr := counter_lookup_eq p s.inner [k] i0 r0 hpr0
  have hfirst := lookupCacheGetAccounts_single (CounterRpcProvider p) s t k
  rw [try_get_lookup_account_miss (CounterRpcProvider p) s t k hmiss, hpr]
    at hfirst
  rcases r0 with e | l
  · rw [hfirst] at hok
    cases e <;> simp at hok
  · rcases l with _ | ⟨a0, rest⟩
    · rw [hfirst] at hok
      simp at hok
    · rw [hfirst] at hok
      simp only at hok
      have ha : a0 = a := by
        simpa using hok
      subst ha
      rw [hfirst]
      constructor
      · rw [lookupCacheGetAccounts_single,
          try_get_lookup_account_hit (CounterRpcProvider p) _ t' k a0
            (Cache.get_insert_self s.lookup_cache t t' k a0 ht')]
      · simp [bumpCounter]

/-- C4 witness: key 5 resolves through the cache at time 0 (one underlying
fetch), and again at time 50 within the 100-tick TTL (no further fetch). -/
theorem lookup_cache_single_fetch_spec_witness :
    (({ inner := { inner := 0, counters := fun _ => 0 },
        lookup_cache := { ttl := 100, entries := [] },
        negative_cache := { ttl := 100, entries := [] } } :
          LookupTableCacheState (CounterState Nat)).lookup_cache.get 0 5 =
      none) ∧
    (lookupCacheGetAccounts
        (CounterRpcProvider (testProvider []
          (fun k => if k == 5 then some ⟨5, [5]⟩ else none) none)) 0
        { inner := { inner := 0, counters := fun _ => 0 },
          lookup_cache := { ttl := 100, entries := [] },
          negative_cache := { ttl := 100, entries := [] } } [5]).2 =
      .ok [⟨5, [5]⟩] ∧
    lookupCacheGetAccounts
        (CounterRpcProvider (testProvider []
          (fun k => if k == 5 then some ⟨5, [5]⟩ else none) none)) 50
        (lookupCacheGetAccounts
          (CounterRpcProvider (testProvider []
            (fun k => if k == 5 then some ⟨5, [5]⟩ else none) none)) 0
          { inner := { inner := 0, counters := fun _ => 0 },
            lookup_cache := { ttl := 100, entries := [] },
            negative_cache := { ttl := 100, entries := [] } } [5]).1 [5] =
      ((lookupCacheGetAccounts
          (CounterRpcProvider (testProvider []
            (fun k => if k == 5 then some ⟨5, [5]⟩ else none) none)) 0
          { inner := { inner := 0, counters := fun _ => 0 },
            lookup_cache := { ttl := 100, entries := [] },
            negative_cache := { ttl := 100, entries := [] } } [5]).1,
        .ok [⟨5, [5]⟩]) ∧
    (lookupCacheGetAccounts
        (CounterRpcProvider (testProvider []
          (fun k => if k == 5 then some ⟨5, [5]⟩ else none) none)) 0
        { inner := { inner := 0, counters := fun _ => 0 },
          lookup_cache := { ttl := 100, entries := [] },
          negative_cache := { ttl := 100, entries := [] } } [5]).1.inner.counters
      .lookup = 1 := by
  have h := lookup_cache_single_fetch_spec
    (testProvider [] (fun k => if k == 5 then some ⟨5, [5]⟩ else none) none)
    { inner := { inner := 0, counters := fun _ => 0 },
      lookup_cache := { ttl := 100, entries := [] },
      negative_cache := { ttl := 100, entries := [] } } 0 50 5 ⟨5, [5]⟩
    (by decide) (by decide) (by decide)
  exact ⟨by decide, by decide, h.1, h.2⟩

/-- Unfolding of the counter decorator's blockhash operation. -/
theorem counter_blockhash_eq {σ : Type} (p : SolanaRpcProvider σ)
    (s : CounterState σ) (i : σ) (r : Except Error BlockHash)
    (hpr : p.get_latest_blockhash s.inner = (i, r)) :
    (CounterRpcProvider p).get_latest_blockhash s =
      ({ inner := i, counters := bumpCounter s.counters .blockhash }, r) := by
  simp [CounterRpcProvider, hpr]

/-- C8: through the blockhash cache decorator over a counting decorator,
every call made while the capacity-one slot holds an unexpired value returns
that same value with the whole state — counters included — unchanged (zero
additional underlying fetches); a call made once the TTL has elapsed performs
exactly one new underlying fetch (counter +1), stores and returns the
underlying provider's current value (a different value whenever the
underlying value changed). -/
theorem blockhash_cache_spec {σ : Type} (p : SolanaRpcProvider σ)
    (s : BlockHashCacheState (CounterState σ)) (h : BlockHash) (t0 t : Nat)
    (hslot : s.blockhash = some (h, t0)) :
    (t < t0 + s.ttl →
      blockhashGetLatest (CounterRpcProvider p) s t = (s, .ok h)) ∧
    (t0 + s.ttl ≤ t →
      ∀ i h2, p.get_latest_blockhash s.inner.inner = (i, .ok h2) →
        blockhashGetLatest (CounterRpcProvider p) s t =
          ({ inner := { inner := i, counters := bumpCounter s.inner.counters RpcMethod.blockhash },
             ttl := s.ttl, blockhash := some (h2, t) }, .ok h2) ∧
        bumpCounter s.inner.counters .blockhash .blockhash =
          s.inner.counters .blockhash + 1) := by
  constructor
  · intro hlt
    unfold blockhashGetLatest
    rw [hslot]
    dsimp only
    rw [if_pos hlt]
  · intro hge i h2 hfetch
    refine ⟨?_, by simp [bumpCounter]⟩
    unfold blockhashGetLatest
    rw [hslot]
    dsimp only
    rw [if_neg (by omega)]
    unfold blockhashFetch
    rw [counter_blockhash_eq p s.inner i (.ok h2) hfetch]

/-- C8 witness: slot holds value 42 stored at time 0 with TTL 10; at time 5
the cached 42 is returned with no fetch, at time 10 a single fetch stores and
returns the underlying provider's new value 100. -/
theorem blockhash_cache_spec_witness :
    blockhashGetLatest
        (CounterRpcProvider (testProvider [] (fun _ => none) none))
        { inner := { inner := 0, counters := fun _ => 0 },
          ttl := 10, blockhash := some (42, 0) } 5 =
      ({ inner := { inner := 0, counters := fun _ => 0 },
         ttl := 10, blockhash := some (42, 0) }, .ok 42) ∧
    (testProvider [] (fun _ => none) none).get_latest_blockhash 0 =
      (1, .ok 100) ∧
    blockhashGetLatest
        (CounterRpcProvider (testProvider [] (fun _ => none) none))
        { inner := { inner := 0, counters := fun _ => 0 },
          ttl := 10, blockhash := some (42, 0) } 10 =
      ({ inner := { inner := 1, counters := bumpCounter (fun _ => 0) RpcMethod.blockhash },
         ttl := 10, blockhash := some (100, 10) }, .ok 100) := by
  have h5 := blockhash_cache_spec (testProvider [] (fun _ => none) none)
    { inner := { inner := 0, counters := fun _ => 0 },
      ttl := 10, blockhash := some (42, 0) } 42 0 5 rfl
  have h10 := blockhash_cache_spec (testProvider [] (fun _ => none) none)
    { inner := { inner := 0, counters := fun _ => 0 },
      ttl := 10, blockhash := some (42, 0) } 42 0 10 rfl
  exact ⟨h5.1 (by decide), by decide, (h10.2 (by decide) 1 100 (by decide)).1⟩

/-- A provider whose lookup resolution finds no table for any key. -/
def c3Provider : SolanaRpcProvider Nat := testProvider [] (fun _ => none) none

/-- A fresh lookup-cache state (both caches empty, TTL 100) over a counting
decorator. -/
def c3State : LookupTableCacheState (CounterState Nat) :=
  { inner := { inner := 0, counters := fun _ => 0 },
    lookup_cache := { ttl := 100, entries := [] },
    negative_cache := { ttl := 100, entries := [] } }

/-- First resolution of the missing key 7, at time 0. -/
def c3FirstCall : LookupTableCacheState (CounterState Nat) ×
    Except Error (List AddressLookupTableAccount) :=
  lookupCacheGetAccounts (CounterRpcProvider c3Provider) 0 c3State [7]

/-- Second resolution of the same key at time 10, well inside the
negative-cache TTL of 100. -/
def c3SecondCall : LookupTableCacheState (CounterState Nat) ×
    Except Error (List AddressLookupTableAccount) :=
  lookupCacheGetAccounts (CounterRpcProvider c3Provider) 10 c3FirstCall.1 [7]

/-- C3 counterexample: key 7 resolves to "not found" at time 0, entering the
negative cache (still live at time 10), yet the call at time 10 — before the
negative-cache TTL expires — performs another underlying resolution attempt:
the counting decorator beneath the cache observes a second lookup call.  The
negative cache is recorded but never consulted by
`try_get_lookup_account`, so the claimed suppression of repeated underlying
attempts does not happen. -/
theorem lookup_negative_cache_counterexample :
    c3FirstCall.2 = .ok [] ∧
    c3FirstCall.1.inner.counters .lookup = 1 ∧
    c3FirstCall.1.negative_cache.get 10 7 = some () ∧
    c3SecondCall.2 = .ok [] ∧
    c3SecondCall.1.inner.counters .lookup = 2 := by
  exact ⟨by decide, by decide, by decide, by decide, by decide⟩

/-- C3 amended: a key that resolves to "not found" is recorded in the
negative cache and omitted from the result of this and of every later call
(still "not found" as long as the underlying provider keeps resolving it to
nothing); however each call whose key misses the positive cache re-attempts
the underlying resolution — the state below the decorator advances — no
matter whether a live negative-cache entry for the key exists, because the
resolution path never consults the negative cache. -/
theorem lookup_negative_cache_spec {σ : Type} (p : SolanaRpcProvider σ)
    (s : LookupTableCacheState σ) (t : Nat) (k : Pubkey) (i : σ)
    (hmiss : s.lookup_cache.get t k = none)
    (hempty : p.get_lookup_table_accounts s.inner [k] = (i, .ok [])) :
    lookupCacheGetAccounts p t s [k] =
      ({ s with inner := i, negative_cache := s.negative_cache.insert t k () },
        .ok []) := by
  rw [lookupCacheGetAccounts_single,
    try_get_lookup_account_miss p s t k hmiss, hempty]

/-- C3 amended witness: a state already holding a live negative-cache entry
for key 7 (inserted at time 0, read at time 10, TTL 100) still re-attempts
the underlying resolution — the underlying state advances from 0 to 1 — and
omits the key from the result. -/
theorem lookup_negative_cache_spec_witness :
    (({ inner := 0, lookup_cache := { ttl := 100, entries := [] },
        negative_cache := { ttl := 100, entries := [(7, (), 0)] } } :
          LookupTableCacheState Nat).negative_cache.get 10 7 = some ()) ∧
    lookupCacheGetAccounts (testProvider [] (fun _ => none) none) 10
        { inner := 0, lookup_cache := { ttl := 100, entries := [] },
          negative_cache := { ttl := 100, entries := [(7, (), 0)] } } [7] =
      ({ inner := 1, lookup_cache := { ttl := 100, entries := [] },
         negative_cache :=
           Cache.insert { ttl := 100, entries := [(7, (), 0)] } 10 7 () },
        .ok []) := by
  refine ⟨by decide, ?_⟩
  exact lookup_negative_cache_spec (testProvider [] (fun _ => none) none)
    { inner := 0, lookup_cache := { ttl := 100, entries := [] },
      negative_cache := { ttl := 100, entries := [(7, (), 0)] } } 10 7 1
    (by decide) (by decide)

/-- The accounts kept by `process_lookup_tables`: an account that is present
and parses to an initialized, non-empty lookup table, paired with its own
request key as the table address (spec-side characterisation of the filter,
to be compared with the source's loop). -/
def validLookupTable (ka : Pubkey × Option Account) :
    Option AddressLookupTableAccount :=
  match ka.2 with
  | some acct =>
    match acct.parsed with
    | some (.lookupTable addrs) =>
      if addrs.isEmpty then none
      else some { key := ka.1, addresses := addrs }
    | _ => none
  | none => none

/-- Lemma: `process_lookup_tables` is the `validLookupTable` filter whenever every
present account's data parses. -/
theorem process_lookup_tables_spec (keys : List Pubkey)
    (accounts : List (Option Account))
    (hlen : keys.length = accounts.length)
    (hparse : ∀ a ∈ accounts, ∀ acct, a = some acct → acct.parsed ≠ none) :
    process_lookup_tables keys accounts =
      .ok ((keys.zip accounts).filterMap validLookupTable) := by
  induction keys generalizing accounts with
  | nil =>
    cases accounts with
    | nil => rfl
    | cons a rest => simp at hlen
  | cons k ks ih =>
    cases accounts with
    | nil => simp at hlen
    | cons a rest =>
      have hlen' : ks.length = rest.length := by simpa using hlen
      have hparse' : ∀ x ∈ rest, ∀ acct, x = some acct → acct.parsed ≠ none :=
        fun x hx => hparse x (List.mem_cons_of_mem _ hx)
      cases a with
      | none =>
        show process_lookup_tables ks rest = _
        rw [ih rest hlen' hparse']
        rfl
      | some acct =>
        cases hpt : acct.parsed with
        | none => exact absurd hpt (hparse _ (List.mem_cons_self _ _) acct rfl)
        | some t =>
          have hp : parse_address_lookup_table acct = .ok t := by
            unfold parse_address_lookup_table
            rw [hpt]
          cases t with
          | uninitialized =>
            simp only [process_lookup_tables, hp]
            rw [ih rest hlen' hparse']
            simp [List.zip_cons_cons, List.filterMap_cons, validLookupTable, hpt]
          | lookupTable addrs =>
            simp only [process_lookup_tables, hp]
            rw [ih rest hlen' hparse']
            cases haddr : addrs.isEmpty with
            | true =>
              simp [List.zip_cons_cons, List.filterMap_cons, validLookupTable,
                hpt, haddr]
            | false =>
              simp [List.zip_cons_cons, List.filterMap_cons, validLookupTable,
                hpt, haddr]

/-- C10: `fetch_lookup_tables` never fails merely because a requested
account is missing, is an uninitialized lookup table, or holds an empty
address list — whenever the fetched accounts all parse, it succeeds and the
result keeps exactly the keys whose account is an initialized, non-empty
lookup table, each paired with its own key as the table address; every other
key is silently omitted. -/
theorem fetch_lookup_tables_spec (keys : List Pubkey)
    (accounts : List (Option Account))
    (rpc : List Pubkey → Except String (List (Option Account)))
    (hrpc : rpc keys = .ok accounts)
    (hlen : keys.length = accounts.length)
    (hparse : ∀ a ∈ accounts, ∀ acct, a = some acct → acct.parsed ≠ none) :
    fetch_lookup_tables keys rpc =
      .ok ((keys.zip accounts).filterMap validLookupTable) := by
  unfold fetch_lookup_tables
  cases keys with
  | nil =>
    cases accounts with
    | nil => rfl
    | cons a rest => simp at hlen
  | cons k ks =>
    rw [if_neg (by simp), hrpc]
    exact process_lookup_tables_spec _ _ hlen hparse

/-- C10 witness: of four requested keys — an initialized table with two
addresses, a missing account, an uninitialized table, and an initialized
table with an empty address list — only the first appears in the successful
result, paired with its own key. -/
theorem fetch_lookup_tables_spec_witness :
    fetch_lookup_tables [1, 2, 3, 4]
        (fun ks =>
          if ks = [1, 2, 3, 4] then
            .ok [some ⟨some (.lookupTable [9, 8])⟩, none,
              some ⟨some .uninitialized⟩, some ⟨some (.lookupTable [])⟩]
          else .error "unexpected keys") =
      .ok [{ key := 1, addresses := [9, 8] }] := by
  have h := fetch_lookup_tables_spec [1, 2, 3, 4]
    [some ⟨some (.lookupTable [9, 8])⟩, none,
      some ⟨some .uninitialized⟩, some ⟨some (.lookupTable [])⟩]
    (fun ks =>
      if ks = [1, 2, 3, 4] then
        .ok [some ⟨some (.lookupTable [9, 8])⟩, none,
          some ⟨some .uninitialized⟩, some ⟨some (.lookupTable [])⟩]
      else .error "unexpected keys")
    (by decide) (by decide) (by decide)
  simpa using h

end Soly
